import Mathlib

/-!
Verification of the Ai-Translator relay service (`server.js`).

The service exposes three POST endpoints (`/translate`, `/suggest-reply`,
`/synthesize-speech`).  Each handler checks a server-held credential, checks
the presence of the request-body fields, performs at most one outbound HTTP
call, and maps the upstream response onto a JSON response for the client.

We embed each handler as a pure Lean function.  The upstream `fetch` is a
function parameter (a stub), and each handler returns the list of outbound
calls it performed (url together with the JSON body sent) next to the HTTP
response it produced, so that "no outbound call occurs" is expressible.
-/

namespace Server

/-- JSON values, as parsed from HTTP bodies by `response.json()`.
Numbers are modelled as integers; no fractional number occurs in any
payload the handlers inspect. -/
inductive Json where
  | null : Json
  | bool : Bool → Json
  | num : Int → Json
  | str : String → Json
  | arr : List Json → Json
  | obj : List (String × Json) → Json
deriving Repr

/-- Lookup of an object field: first binding wins, `none` models the value
`undefined`. -/
def jlookup : List (String × Json) → String → Option Json
  | [], _ => none
  | (k, v) :: rest, key => if k == key then some v else jlookup rest key

/-- JavaScript truthiness of a possibly-undefined value (`none` models
`undefined`): `undefined`, `null`, `false`, `0` and `""` are falsy, every
array and object is truthy. -/
def truthyOpt : Option Json → Bool
  | none => false
  | some Json.null => false
  | some (Json.bool b) => b
  | some (Json.num n) => n != 0
  | some (Json.str s) => s != ""
  | some (Json.arr _) => true
  | some (Json.obj _) => true

/-- JavaScript property access `v.key`.  Access on `undefined` or `null`
throws a TypeError (modelled as `Except.error` carrying the message); on
other values a missing property reads as `undefined` (`none`).  Strings and
arrays expose `length`. -/
def jsField : Option Json → String → Except String (Option Json)
  | none, key => Except.error ("TypeError: cannot read " ++ key ++ " of undefined")
  | some Json.null, key => Except.error ("TypeError: cannot read " ++ key ++ " of null")
  | some (Json.obj fs), key => Except.ok (jlookup fs key)
  | some (Json.str s), key =>
      Except.ok (if key == "length" then some (Json.num (Int.ofNat s.length)) else none)
  | some (Json.arr xs), key =>
      Except.ok (if key == "length" then some (Json.num (Int.ofNat xs.length)) else none)
  | some _, _ => Except.ok none

/-- JavaScript indexing `v[i]` for a natural index: arrays index their
elements, strings their characters, objects their field named `toString i`;
indexing `undefined` or `null` throws. -/
def jsIndex : Option Json → Nat → Except String (Option Json)
  | none, i => Except.error ("TypeError: cannot read " ++ toString i ++ " of undefined")
  | some Json.null, i => Except.error ("TypeError: cannot read " ++ toString i ++ " of null")
  | some (Json.arr xs), i => Except.ok (xs.get? i)
  | some (Json.str s), i => Except.ok ((s.toList.get? i).map (fun c => Json.str (String.mk [c])))
  | some (Json.obj fs), i => Except.ok (jlookup fs (toString i))
  | some _, _ => Except.ok none

/-- JavaScript `.length` where it exists (arrays and strings). -/
def jsLength : Option Json → Option Nat
  | some (Json.arr xs) => some xs.length
  | some (Json.str s) => some s.length
  | _ => none

/-- Conversion `String(v)` as used by `new Error(v)` for the values reaching it here:
object payloads print as `[object Object]`; an array joins its elements.
`new Error(undefined)` has the empty message. -/
def jsToString : Json → String
  | Json.null => "null"
  | Json.bool true => "true"
  | Json.bool false => "false"
  | Json.num n => toString n
  | Json.str s => s
  | Json.arr _ => "[object Array]"
  | Json.obj _ => "[object Object]"

/-- The message of `new Error(v)`: `undefined` gives the empty message,
anything else its string conversion. -/
def jsErrorText : Option Json → String
  | none => ""
  | some j => jsToString j

/-- Whitespace as stripped by JavaScript `String.prototype.trim`:
space, tab, line feed, carriage return, vertical tab and form feed (the
payloads handled here contain no exotic Unicode whitespace). -/
def isJsSpace (c : Char) : Bool :=
  c == ' ' || c == '\t' || c == '\n' || c == '\r' ||
    c == Char.ofNat 11 || c == Char.ofNat 12

/-- JavaScript `String.prototype.trim`: strips leading and trailing
whitespace. -/
def jsTrim (s : String) : String :=
  String.mk (((s.toList.dropWhile isJsSpace).reverse.dropWhile isJsSpace).reverse)

/-- JavaScript `String.prototype.includes` with a single-character
needle, as used by `text.includes(' ')`. -/
def jsIncludes (s : String) (c : Char) : Bool := s.toList.contains c

/-- JavaScript `String.prototype.split` with a single-character separator,
on the character list: every separator occurrence cuts, so leading,
trailing and adjacent separators produce empty pieces, and the empty
string yields one empty piece. -/
def jsSplitList (sep : Char) : List Char → List (List Char)
  | [] => [[]]
  | c :: rest =>
    if c == sep then [] :: jsSplitList sep rest
    else
      match jsSplitList sep rest with
      | h :: t => (c :: h) :: t
      | [] => [[c]]

/-- JavaScript `String.prototype.split` with a single-character separator,
as used by `.split('\n')`. -/
def jsSplit (s : String) (sep : Char) : List String :=
  (jsSplitList sep s.toList).map String.mk

/-- Calling `.trim()` on a JavaScript value: defined on strings only;
on `undefined`/`null` the property read throws, on other values the call
throws. -/
def jsTrimCall : Option Json → Except String String
  | some (Json.str s) => Except.ok (jsTrim s)
  | none => Except.error "TypeError: cannot read trim of undefined"
  | some Json.null => Except.error "TypeError: cannot read trim of null"
  | some _ => Except.error "TypeError: trim is not a function"

/-- Loading of an API key from the environment (server.js lines 17-18):
`process.env.X ? process.env.X.trim() : null`.  An unset or empty variable
yields `null` (`none`); otherwise the trimmed value. -/
def loadKey (env : Option String) : Option String :=
  match env with
  | some s => if s != "" then some (jsTrim s) else none
  | none => none

/-- JavaScript falsiness of a string-or-null value, as used by the
`!GEMINI_API_KEY` / `!text` guards: `undefined`, `null` and `""` are
falsy. -/
def falsyStr (o : Option String) : Bool := o.getD "" == ""

/-- A JSON body sent back to the client.  `errorMsg e` models
`{error: e}`, `errorDetails e d` models `{error: e, details: d}`,
`translation t` models `{translation: t}`, `suggestions s` models
`{suggestions: s}`, and `raw j` is the payload `j` forwarded verbatim. -/
inductive RespBody where
  | errorMsg : String → RespBody
  | errorDetails : String → String → RespBody
  | translation : String → RespBody
  | suggestions : List String → RespBody
  | raw : Json → RespBody
deriving Repr

/-- The response sent to the client: HTTP status and JSON body. -/
structure HttpResponse where
  status : Nat
  body : RespBody
deriving Repr

/-- A resolved upstream `fetch` result: the `ok` flag, the status text and
the parsed JSON payload (`await response.json()`). -/
structure FetchResponse where
  ok : Bool
  statusText : String
  data : Json
deriving Repr

/-- Body of a POST /translate request; `none` models an absent field. -/
structure TranslateBody where
  text : Option String
  sourceLang : Option String
  targetLang : Option String

/-- Body of a POST /suggest-reply request. -/
structure SuggestBody where
  text : Option String
  language : Option String

/-- Body of a POST /synthesize-speech request. -/
structure SpeechBody where
  text : Option String
  langCode : Option String

/-- The Gemini generateContent endpoint URL before the key is appended. -/
def GEMINI_URL_BASE : String :=
  "https://generativelanguage.googleapis.com/v1beta/models/gemini-1.5-flash-latest:generateContent?key="

/-- The Gemini URL with the API key substituted. -/
def geminiUrl (key : String) : String := GEMINI_URL_BASE ++ key

/-- The TTS endpoint URL before the key is appended. -/
def TTS_URL_BASE : String :=
  "https://texttospeech.googleapis.com/v1/text:synthesize?key="

/-- The outbound Gemini request body
`JSON.stringify( contents: [ parts: [ text: prompt ] ] )`. -/
def geminiRequestBody (prompt : String) : Json :=
  Json.obj [("contents", Json.arr [Json.obj [("parts",
    Json.arr [Json.obj [("text", Json.str prompt)]])]])]

/-- The single-word translation prompt template (server.js line 33). -/
def singleWordPrompt (text sourceLang targetLang : String) : String :=
  "Translate the word \"" ++ text ++ "\" from " ++ sourceLang ++ " to " ++
    targetLang ++ ". Provide only the single translated word."

/-- The multi-word translation prompt template (server.js line 34). -/
def multiWordPrompt (text sourceLang targetLang : String) : String :=
  "Translate the following " ++ sourceLang ++ " text to " ++ targetLang ++
    ". Provide ONLY the translated text. Text: \"" ++ text ++ "\""

/-- The suggestion prompt template (server.js line 76). -/
def suggestPrompt (text language : String) : String :=
  "I received a message in " ++ language ++ " that says: \"" ++ text ++
    "\". Suggest three short, common, and natural-sounding replies in " ++
    language ++
    ". Provide ONLY the three replies, each on a new line. Do not add numbers, bullets, or any extra text."

/-- The outbound TTS request body (server.js lines 105-109). -/
def ttsRequestBody (text langCode : String) : Json :=
  Json.obj [
    ("input", Json.obj [("text", Json.str text)]),
    ("voice", Json.obj [("languageCode", Json.str langCode), ("ssmlGender", Json.str "NEUTRAL")]),
    ("audioConfig", Json.obj [("audioEncoding", Json.str "MP3")])]

/-- Extraction `data.candidates[0].content.parts[0].text` starting from the already
fetched `candidates` value; any step on `undefined`/`null` throws. -/
def extractFromCandidates (c : Option Json) : Except String (Option Json) :=
  match jsIndex c 0 with
  | Except.error msg => Except.error msg
  | Except.ok c0 =>
    match jsField c0 "content" with
    | Except.error msg => Except.error msg
    | Except.ok content =>
      match jsField content "parts" with
      | Except.error msg => Except.error msg
      | Except.ok parts =>
        match jsIndex parts 0 with
        | Except.error msg => Except.error msg
        | Except.ok p0 => jsField p0 "text"

/-- Computation of `data.error ? data.error.message : 'API request failed: ' +
statusText` in the /translate handler (line 47), inside the try block:
reading `.error` of a `null` payload throws. -/
def geminiFailMessage (data : Json) (statusText : String) : Except String String :=
  match jsField (some data) "error" with
  | Except.error msg => Except.error msg
  | Except.ok e =>
    if truthyOpt e then
      match jsField e "message" with
      | Except.error msg => Except.error msg
      | Except.ok m => Except.ok (jsErrorText m)
    else
      Except.ok ("API request failed: " ++ statusText)

/-- Computation of `data.error ? data.error.message : 'TTS API request
failed: ' + statusText` in the /synthesize-speech handler (line 117). -/
def ttsFailMessage (data : Json) (statusText : String) : Except String String :=
  match jsField (some data) "error" with
  | Except.error msg => Except.error msg
  | Except.ok e =>
    if truthyOpt e then
      match jsField e "message" with
      | Except.error msg => Except.error msg
      | Except.ok m => Except.ok (jsErrorText m)
    else
      Except.ok ("TTS API request failed: " ++ statusText)

/-- The POST /translate handler (server.js lines 21-64) as a function of
the loaded `GEMINI_API_KEY`, the request body and a stub for the upstream
`fetch` (mapping url and outbound JSON body to the resolved response).
Returns the outbound calls made and the HTTP response sent. -/
def translate (GEMINI_API_KEY : Option String) (body : TranslateBody)
    (upstream : String → Json → FetchResponse) :
    List (String × Json) × HttpResponse :=
  if falsyStr GEMINI_API_KEY then
    ([], ⟨500, RespBody.errorMsg "Gemini API key is not configured on the server."⟩)
  else if falsyStr body.text || falsyStr body.sourceLang || falsyStr body.targetLang then
    ([], ⟨400, RespBody.errorMsg "Missing required fields"⟩)
  else
    let text := body.text.getD ""
    let sourceLang := body.sourceLang.getD ""
    let targetLang := body.targetLang.getD ""
    let isSingleWord := !(jsIncludes text ' ')
    let prompt :=
      if isSingleWord then singleWordPrompt text sourceLang targetLang
      else multiWordPrompt text sourceLang targetLang
    let apiUrl := geminiUrl (GEMINI_API_KEY.getD "")
    let reqBody := geminiRequestBody prompt
    let resp := upstream apiUrl reqBody
    let data := resp.data
    let outcome : Except String String :=
      if !resp.ok then
        match geminiFailMessage data resp.statusText with
        | Except.ok msg => Except.error msg
        | Except.error msg => Except.error msg
      else
        match jsField (some data) "candidates" with
        | Except.error msg => Except.error msg
        | Except.ok c =>
          if !(truthyOpt c) || jsLength c == some 0 then
            Except.error "No translation candidate found in the API response."
          else
            match extractFromCandidates c with
            | Except.error msg => Except.error msg
            | Except.ok t => jsTrimCall t
    match outcome with
    | Except.ok tr => ([(apiUrl, reqBody)], ⟨200, RespBody.translation tr⟩)
    | Except.error msg =>
        ([(apiUrl, reqBody)], ⟨500, RespBody.errorDetails "Failed to translate text" msg⟩)

/-- The POST /suggest-reply handler (server.js lines 67-92). -/
def suggestReply (GEMINI_API_KEY : Option String) (body : SuggestBody)
    (upstream : String → Json → FetchResponse) :
    List (String × Json) × HttpResponse :=
  if falsyStr GEMINI_API_KEY then
    ([], ⟨500, RespBody.errorMsg "Gemini API key is not configured on the server."⟩)
  else if falsyStr body.text || falsyStr body.language then
    ([], ⟨400, RespBody.errorMsg "Missing required fields"⟩)
  else
    let text := body.text.getD ""
    let language := body.language.getD ""
    let prompt := suggestPrompt text language
    let apiUrl := geminiUrl (GEMINI_API_KEY.getD "")
    let reqBody := geminiRequestBody prompt
    let resp := upstream apiUrl reqBody
    let outcome : Except String (List String) :=
      if !resp.ok then Except.error "API request failed"
      else
        match jsField (some resp.data) "candidates" with
        | Except.error msg => Except.error msg
        | Except.ok c =>
          match extractFromCandidates c with
          | Except.error msg => Except.error msg
          | Except.ok t =>
            match jsTrimCall t with
            | Except.error msg => Except.error msg
            | Except.ok suggestionsText =>
              Except.ok ((jsSplit suggestionsText '\n').filter (fun line => jsTrim line != ""))
    match outcome with
    | Except.ok ss => ([(apiUrl, reqBody)], ⟨200, RespBody.suggestions ss⟩)
    | Except.error _ =>
        ([(apiUrl, reqBody)], ⟨500, RespBody.errorMsg "Failed to generate suggestions"⟩)

/-- The POST /synthesize-speech handler (server.js lines 95-125). -/
def synthesizeSpeech (TTS_API_KEY : Option String) (body : SpeechBody)
    (upstream : String → Json → FetchResponse) :
    List (String × Json) × HttpResponse :=
  if falsyStr TTS_API_KEY then
    ([], ⟨500, RespBody.errorMsg "TTS API key is not configured on the server."⟩)
  else if falsyStr body.text || falsyStr body.langCode then
    ([], ⟨400, RespBody.errorMsg "Missing text or language code"⟩)
  else
    let text := body.text.getD ""
    let langCode := body.langCode.getD ""
    let ttsApiUrl := TTS_URL_BASE ++ TTS_API_KEY.getD ""
    let reqBody := ttsRequestBody text langCode
    let resp := upstream ttsApiUrl reqBody
    let outcome : Except String Json :=
      if !resp.ok then
        match ttsFailMessage resp.data resp.statusText with
        | Except.ok msg => Except.error msg
        | Except.error msg => Except.error msg
      else Except.ok resp.data
    match outcome with
    | Except.ok data => ([(ttsApiUrl, reqBody)], ⟨200, RespBody.raw data⟩)
    | Except.error msg =>
        ([(ttsApiUrl, reqBody)], ⟨500, RespBody.errorDetails "Failed to synthesize speech" msg⟩)


/-- Stub upstream success payload: a Gemini response whose first candidate
carries the text `t`, as the spec's stub upstream returns it. -/
def candidatePayload (t : String) : Json :=
  Json.obj [("candidates", Json.arr [Json.obj [("content",
    Json.obj [("parts", Json.arr [Json.obj [("text", Json.str t)]])])]])]

/-- C2: for every request to an endpoint whose required credential
(GEMINI_API_KEY for /translate and /suggest-reply, TTS_API_KEY for
/synthesize-speech) is unset, the handler responds with HTTP 500 carrying a
"not configured" error message, and no outbound HTTP call is made. -/
theorem C2_unset_credential_500 (tb : TranslateBody) (sb : SuggestBody)
    (pb : SpeechBody) (up : String → Json → FetchResponse) :
    translate (loadKey none) tb up =
      ([], ⟨500, RespBody.errorMsg "Gemini API key is not configured on the server."⟩) ∧
    suggestReply (loadKey none) sb up =
      ([], ⟨500, RespBody.errorMsg "Gemini API key is not configured on the server."⟩) ∧
    synthesizeSpeech (loadKey none) pb up =
      ([], ⟨500, RespBody.errorMsg "TTS API key is not configured on the server."⟩) :=
  ⟨rfl, rfl, rfl⟩

/-- C1: for every request to /translate, /suggest-reply or
/synthesize-speech made while the endpoint's credential is configured,
whose body is missing (or has empty) any required field, the handler
responds with HTTP 400 carrying the fixed error message of that endpoint,
and no outbound HTTP call is made. -/
theorem C1_missing_field_400 (gk tk : Option String) (tb : TranslateBody)
    (sb : SuggestBody) (pb : SpeechBody) (up : String → Json → FetchResponse)
    (hgk : falsyStr gk = false) (htk : falsyStr tk = false)
    (htb : (falsyStr tb.text || falsyStr tb.sourceLang || falsyStr tb.targetLang) = true)
    (hsb : (falsyStr sb.text || falsyStr sb.language) = true)
    (hpb : (falsyStr pb.text || falsyStr pb.langCode) = true) :
    translate gk tb up = ([], ⟨400, RespBody.errorMsg "Missing required fields"⟩) ∧
    suggestReply gk sb up = ([], ⟨400, RespBody.errorMsg "Missing required fields"⟩) ∧
    synthesizeSpeech tk pb up = ([], ⟨400, RespBody.errorMsg "Missing text or language code"⟩) := by
  refine ⟨?_, ?_, ?_⟩ <;>
    simp [translate, suggestReply, synthesizeSpeech, hgk, htk, htb, hsb, hpb]

/-- Witness for C1 at concrete inputs: /translate missing `text`,
/suggest-reply with empty `text`, /synthesize-speech missing `langCode`. -/
theorem C1_missing_field_400_witness :
    translate (some "k") ⟨none, some "English", some "French"⟩
        (fun _ _ => ⟨true, "OK", Json.null⟩) =
      ([], ⟨400, RespBody.errorMsg "Missing required fields"⟩) ∧
    suggestReply (some "k") ⟨some "", some "French"⟩
        (fun _ _ => ⟨true, "OK", Json.null⟩) =
      ([], ⟨400, RespBody.errorMsg "Missing required fields"⟩) ∧
    synthesizeSpeech (some "t") ⟨some "hi", none⟩
        (fun _ _ => ⟨true, "OK", Json.null⟩) =
      ([], ⟨400, RespBody.errorMsg "Missing text or language code"⟩) :=
  C1_missing_field_400 (some "k") (some "t") ⟨none, some "English", some "French"⟩
    ⟨some "", some "French"⟩ ⟨some "hi", none⟩ (fun _ _ => ⟨true, "OK", Json.null⟩)
    rfl rfl rfl rfl rfl

/-- Status codes 500 and 400 differ. -/
theorem status500_ne_400 : (500 : Nat) ≠ 400 := by decide

/-- C9: for every endpoint the credential check is evaluated before the
required-field check: a request that is both missing required fields and
made while the endpoint's credential is unset receives HTTP 500 (the "not
configured" response), never HTTP 400. -/
theorem C9_credential_check_first (tb : TranslateBody) (sb : SuggestBody)
    (pb : SpeechBody) (up : String → Json → FetchResponse)
    (htb : (falsyStr tb.text || falsyStr tb.sourceLang || falsyStr tb.targetLang) = true)
    (hsb : (falsyStr sb.text || falsyStr sb.language) = true)
    (hpb : (falsyStr pb.text || falsyStr pb.langCode) = true) :
    ((translate none tb up).2 =
        ⟨500, RespBody.errorMsg "Gemini API key is not configured on the server."⟩ ∧
      (translate none tb up).2.status ≠ 400) ∧
    ((suggestReply none sb up).2 =
        ⟨500, RespBody.errorMsg "Gemini API key is not configured on the server."⟩ ∧
      (suggestReply none sb up).2.status ≠ 400) ∧
    ((synthesizeSpeech none pb up).2 =
        ⟨500, RespBody.errorMsg "TTS API key is not configured on the server."⟩ ∧
      (synthesizeSpeech none pb up).2.status ≠ 400) :=
  ⟨⟨rfl, status500_ne_400⟩, ⟨rfl, status500_ne_400⟩, ⟨rfl, status500_ne_400⟩⟩

/-- Witness for C9: bodies missing every field, unset credentials. -/
theorem C9_credential_check_first_witness :
    ((translate none ⟨none, none, none⟩ (fun _ _ => ⟨true, "OK", Json.null⟩)).2 =
        ⟨500, RespBody.errorMsg "Gemini API key is not configured on the server."⟩ ∧
      (translate none ⟨none, none, none⟩ (fun _ _ => ⟨true, "OK", Json.null⟩)).2.status ≠ 400) ∧
    ((suggestReply none ⟨none, none⟩ (fun _ _ => ⟨true, "OK", Json.null⟩)).2 =
        ⟨500, RespBody.errorMsg "Gemini API key is not configured on the server."⟩ ∧
      (suggestReply none ⟨none, none⟩ (fun _ _ => ⟨true, "OK", Json.null⟩)).2.status ≠ 400) ∧
    ((synthesizeSpeech none ⟨none, none⟩ (fun _ _ => ⟨true, "OK", Json.null⟩)).2 =
        ⟨500, RespBody.errorMsg "TTS API key is not configured on the server."⟩ ∧
      (synthesizeSpeech none ⟨none, none⟩ (fun _ _ => ⟨true, "OK", Json.null⟩)).2.status ≠ 400) :=
  C9_credential_check_first ⟨none, none, none⟩ ⟨none, none⟩ ⟨none, none⟩
    (fun _ _ => ⟨true, "OK", Json.null⟩) rfl rfl rfl

/-- C8: for every /synthesize-speech request whose upstream call succeeds,
the response body is the upstream JSON payload exactly as received, with no
field renamed, added, removed or decoded. -/
theorem C8_tts_payload_verbatim (key : Option String) (pb : SpeechBody)
    (resp : FetchResponse) (hk : falsyStr key = false)
    (h1 : falsyStr pb.text = false) (h2 : falsyStr pb.langCode = false)
    (hok : resp.ok = true) :
    synthesizeSpeech key pb (fun _ _ => resp) =
      ([(TTS_URL_BASE ++ key.getD "", ttsRequestBody (pb.text.getD "") (pb.langCode.getD ""))],
       ⟨200, RespBody.raw resp.data⟩) := by
  simp [synthesizeSpeech, hk, h1, h2, hok]

/-- Witness for C8: a stub returning the payload with `audioContent` "ABC"
yields exactly that payload. -/
theorem C8_tts_payload_verbatim_witness :
    synthesizeSpeech (some "t") ⟨some "hi", some "en-US"⟩
        (fun _ _ => ⟨true, "OK", Json.obj [("audioContent", Json.str "ABC")]⟩) =
      ([(TTS_URL_BASE ++ (some "t" : Option String).getD "", ttsRequestBody "hi" "en-US")],
       ⟨200, RespBody.raw (Json.obj [("audioContent", Json.str "ABC")])⟩) :=
  C8_tts_payload_verbatim (some "t") ⟨some "hi", some "en-US"⟩
    ⟨true, "OK", Json.obj [("audioContent", Json.str "ABC")]⟩ rfl rfl rfl rfl


/-- C3: for every valid /translate request the outbound prompt is built
from the multi-word template if and only if `text` contains a space
character, and from the single-word template otherwise, with `text`,
`sourceLang` and `targetLang` substituted into the chosen template. -/
theorem C3_prompt_template_selection (key : Option String) (tb : TranslateBody)
    (up : String → Json → FetchResponse) (hk : falsyStr key = false)
    (h1 : falsyStr tb.text = false) (h2 : falsyStr tb.sourceLang = false)
    (h3 : falsyStr tb.targetLang = false) :
    (translate key tb up).1 =
      [(geminiUrl (key.getD ""),
        geminiRequestBody
          (if jsIncludes (tb.text.getD "") ' ' then
            multiWordPrompt (tb.text.getD "") (tb.sourceLang.getD "") (tb.targetLang.getD "")
          else
            singleWordPrompt (tb.text.getD "") (tb.sourceLang.getD "") (tb.targetLang.getD "")))] := by
  unfold translate
  simp only [hk, h1, h2, h3, Bool.or_self, Bool.false_or, Bool.or_false]
  cases hc : jsIncludes (tb.text.getD "") ' ' <;>
    simp only [hc, Bool.not_true, Bool.not_false, if_true, if_false, Bool.false_eq_true,
      ite_false, ite_true] <;>
    split <;> rfl

/-- Witness for C3: "good morning" contains a space, so the multi-word
template is sent. -/
theorem C3_prompt_template_selection_witness :
    (translate (some "k") ⟨some "good morning", some "English", some "French"⟩
        (fun _ _ => ⟨true, "OK", Json.null⟩)).1 =
      [(geminiUrl "k", geminiRequestBody (multiWordPrompt "good morning" "English" "French"))] := by
  have h := C3_prompt_template_selection (some "k")
    ⟨some "good morning", some "English", some "French"⟩
    (fun _ _ => ⟨true, "OK", Json.null⟩) rfl rfl rfl rfl
  rw [h]
  rfl

/-- C4: for every /translate request whose upstream call succeeds with at
least one candidate, the response is HTTP 200 with `translation` equal to
the first candidate's text content with surrounding whitespace trimmed. -/
theorem C4_translate_success (key : Option String) (tb : TranslateBody)
    (st t : String) (cs ps : List Json)
    (hk : falsyStr key = false) (h1 : falsyStr tb.text = false)
    (h2 : falsyStr tb.sourceLang = false) (h3 : falsyStr tb.targetLang = false) :
    (translate key tb (fun _ _ =>
        ⟨true, st, Json.obj [("candidates", Json.arr
          (Json.obj [("content", Json.obj [("parts", Json.arr
            (Json.obj [("text", Json.str t)] :: ps))])] :: cs))]⟩)).2 =
      ⟨200, RespBody.translation (jsTrim t)⟩ := by
  unfold translate
  simp only [hk, h1, h2, h3, Bool.or_self, Bool.false_or, Bool.or_false, Bool.false_eq_true,
    ite_false, if_false]
  rfl

/-- Witness for C4: translate("cat","English","French") against a stub
returning candidate text " chat " yields translation "chat". -/
theorem C4_translate_success_witness :
    (translate (some "k") ⟨some "cat", some "English", some "French"⟩ (fun _ _ =>
        ⟨true, "OK", Json.obj [("candidates", Json.arr
          [Json.obj [("content", Json.obj [("parts", Json.arr
            [Json.obj [("text", Json.str " chat ")]])])]])]⟩)).2 =
      ⟨200, RespBody.translation "chat"⟩ := by
  have h := C4_translate_success (some "k") ⟨some "cat", some "English", some "French"⟩
    "OK" " chat " [] [] rfl rfl rfl rfl
  rw [h]
  rfl

/-- C5: on a /translate upstream failure the 500 details carry the message
of the payload's error field (falling back to the raw status text when the
field is absent), and a successful upstream reply without candidates
(field missing or empty array) gives a 500 with the no-candidate
message. -/
theorem C5_translate_upstream_errors (key : Option String) (tb : TranslateBody)
    (hk : falsyStr key = false) (h1 : falsyStr tb.text = false)
    (h2 : falsyStr tb.sourceLang = false) (h3 : falsyStr tb.targetLang = false) :
    (∀ (st m : String) (erest drest : List (String × Json)),
      (translate key tb (fun _ _ =>
          ⟨false, st, Json.obj (("error", Json.obj (("message", Json.str m) :: erest)) :: drest)⟩)).2 =
        ⟨500, RespBody.errorDetails "Failed to translate text" m⟩) ∧
    (∀ (st : String) (drest : List (String × Json)), jlookup drest "error" = none →
      (translate key tb (fun _ _ => ⟨false, st, Json.obj drest⟩)).2 =
        ⟨500, RespBody.errorDetails "Failed to translate text" ("API request failed: " ++ st)⟩) ∧
    (∀ (st : String) (drest : List (String × Json)), jlookup drest "candidates" = none →
      (translate key tb (fun _ _ => ⟨true, st, Json.obj drest⟩)).2 =
        ⟨500, RespBody.errorDetails "Failed to translate text"
          "No translation candidate found in the API response."⟩) ∧
    (∀ (st : String) (extra : List (String × Json)),
      (translate key tb (fun _ _ => ⟨true, st, Json.obj (("candidates", Json.arr []) :: extra)⟩)).2 =
        ⟨500, RespBody.errorDetails "Failed to translate text"
          "No translation candidate found in the API response."⟩) := by
  refine ⟨?_, ?_, ?_, ?_⟩
  · intro st m erest drest
    unfold translate
    simp only [hk, h1, h2, h3, Bool.or_self, Bool.false_or, Bool.or_false, Bool.false_eq_true,
      ite_false, if_false]
    rfl
  · intro st drest hE
    unfold translate geminiFailMessage
    simp only [hk, h1, h2, h3, Bool.or_self, Bool.false_or, Bool.or_false, Bool.false_eq_true,
      ite_false, if_false, jsField, hE, truthyOpt]
    rfl
  · intro st drest hC
    unfold translate
    simp only [hk, h1, h2, h3, Bool.or_self, Bool.false_or, Bool.or_false, Bool.false_eq_true,
      ite_false, if_false, jsField, hC, truthyOpt]
    rfl
  · intro st extra
    unfold translate
    simp only [hk, h1, h2, h3, Bool.or_self, Bool.false_or, Bool.or_false, Bool.false_eq_true,
      ite_false, if_false]
    rfl

/-- Witness for C5 at concrete inputs: error message "quota exceeded",
missing error field with status text "Bad Request", missing candidates,
and an empty candidates array. -/
theorem C5_translate_upstream_errors_witness :
    (translate (some "k") ⟨some "cat", some "en", some "fr"⟩ (fun _ _ =>
        ⟨false, "Bad Request",
         Json.obj [("error", Json.obj [("message", Json.str "quota exceeded")])]⟩)).2 =
      ⟨500, RespBody.errorDetails "Failed to translate text" "quota exceeded"⟩ ∧
    (translate (some "k") ⟨some "cat", some "en", some "fr"⟩ (fun _ _ =>
        ⟨false, "Bad Request", Json.obj []⟩)).2 =
      ⟨500, RespBody.errorDetails "Failed to translate text" "API request failed: Bad Request"⟩ ∧
    (translate (some "k") ⟨some "cat", some "en", some "fr"⟩ (fun _ _ =>
        ⟨true, "OK", Json.obj []⟩)).2 =
      ⟨500, RespBody.errorDetails "Failed to translate text"
        "No translation candidate found in the API response."⟩ ∧
    (translate (some "k") ⟨some "cat", some "en", some "fr"⟩ (fun _ _ =>
        ⟨true, "OK", Json.obj [("candidates", Json.arr [])]⟩)).2 =
      ⟨500, RespBody.errorDetails "Failed to translate text"
        "No translation candidate found in the API response."⟩ := by
  have h := C5_translate_upstream_errors (some "k") ⟨some "cat", some "en", some "fr"⟩
    rfl rfl rfl rfl
  exact ⟨h.1 "Bad Request" "quota exceeded" [] [], h.2.1 "Bad Request" [] rfl,
    h.2.2.1 "OK" [] rfl, h.2.2.2 "OK" []⟩

/-- C7: every /suggest-reply request that passes the precondition checks
either succeeds with a suggestions list, or fails with exactly the fixed
generic body; no upstream-derived message ever appears in the failure
response. -/
theorem C7_suggest_failure_generic (key : Option String) (sb : SuggestBody)
    (resp : FetchResponse) (hk : falsyStr key = false)
    (h1 : falsyStr sb.text = false) (h2 : falsyStr sb.language = false) :
    (∃ ss, suggestReply key sb (fun _ _ => resp) =
        ([(geminiUrl (key.getD ""),
           geminiRequestBody (suggestPrompt (sb.text.getD "") (sb.language.getD "")))],
         ⟨200, RespBody.suggestions ss⟩)) ∨
    suggestReply key sb (fun _ _ => resp) =
      ([(geminiUrl (key.getD ""),
         geminiRequestBody (suggestPrompt (sb.text.getD "") (sb.language.getD "")))],
       ⟨500, RespBody.errorMsg "Failed to generate suggestions"⟩) := by
  unfold suggestReply
  simp only [hk, h1, h2, Bool.or_self, Bool.false_or, Bool.or_false, Bool.false_eq_true,
    ite_false, if_false]
  split
  · exact Or.inl ⟨_, rfl⟩
  · exact Or.inr rfl

/-- Witness for C7: a non-success upstream reply carrying a specific error
message still produces only the generic failure body. -/
theorem C7_suggest_failure_generic_witness :
    (∃ ss, suggestReply (some "k") ⟨some "hello", some "French"⟩
        (fun _ _ => ⟨false, "Bad Request",
          Json.obj [("error", Json.obj [("message", Json.str "quota exceeded")])]⟩) =
        ([(geminiUrl "k", geminiRequestBody (suggestPrompt "hello" "French"))],
         ⟨200, RespBody.suggestions ss⟩)) ∨
    suggestReply (some "k") ⟨some "hello", some "French"⟩
        (fun _ _ => ⟨false, "Bad Request",
          Json.obj [("error", Json.obj [("message", Json.str "quota exceeded")])]⟩) =
      ([(geminiUrl "k", geminiRequestBody (suggestPrompt "hello" "French"))],
       ⟨500, RespBody.errorMsg "Failed to generate suggestions"⟩) :=
  C7_suggest_failure_generic (some "k") ⟨some "hello", some "French"⟩
    ⟨false, "Bad Request", Json.obj [("error", Json.obj [("message", Json.str "quota exceeded")])]⟩
    rfl rfl rfl

/-- Following the claim wording only ("the upstream text split on line
breaks with blank lines discarded"), for comparison with the implemented
behavior: the upstream text is split as received, without first trimming
the whole text. -/
def claimSuggestionSplit (t : String) : List String :=
  (jsSplit t '\n').filter (fun line => jsTrim line != "")

/-- Counterexample to C6 as stated: for upstream text " Hi\nBye" the code
first trims the whole text and returns ["Hi", "Bye"], which differs from
the claimed value, the split of the text as received ([" Hi", "Bye"]). -/
theorem C6_counterexample :
    (suggestReply (some "k") ⟨some "hello", some "French"⟩
        (fun _ _ => ⟨true, "OK", candidatePayload " Hi\nBye"⟩)).2 =
      ⟨200, RespBody.suggestions ["Hi", "Bye"]⟩ ∧
    claimSuggestionSplit " Hi\nBye" = [" Hi", "Bye"] ∧
    (["Hi", "Bye"] : List String) ≠ [" Hi", "Bye"] :=
  ⟨rfl, rfl, by decide⟩

/-- C6 amended: for every /suggest-reply request whose upstream call
succeeds, the response is HTTP 200 with `suggestions` equal to the
upstream text first trimmed of surrounding whitespace, then split on line
breaks with whitespace-only lines discarded and the order of the remaining
lines preserved; the count is whatever the split produces.  In particular
upstream text "Hi\n\nThanks\nSee you" yields ["Hi", "Thanks", "See you"]. -/
theorem C6_suggestions_from_split (key : Option String) (sb : SuggestBody)
    (st t : String) (hk : falsyStr key = false)
    (h1 : falsyStr sb.text = false) (h2 : falsyStr sb.language = false) :
    (suggestReply key sb (fun _ _ => ⟨true, st, candidatePayload t⟩)).2 =
      ⟨200, RespBody.suggestions
        ((jsSplit (jsTrim t) '\n').filter (fun line => jsTrim line != ""))⟩ ∧
    (suggestReply key sb (fun _ _ =>
        ⟨true, st, candidatePayload "Hi\n\nThanks\nSee you"⟩)).2 =
      ⟨200, RespBody.suggestions ["Hi", "Thanks", "See you"]⟩ := by
  constructor
  · unfold suggestReply
    simp only [hk, h1, h2, Bool.or_self, Bool.false_or, Bool.or_false, Bool.false_eq_true,
      ite_false, if_false]
    rfl
  · unfold suggestReply
    simp only [hk, h1, h2, Bool.or_self, Bool.false_or, Bool.or_false, Bool.false_eq_true,
      ite_false, if_false]
    rfl

/-- Witness for the amended C6 at the claim's concrete example. -/
theorem C6_suggestions_from_split_witness :
    (suggestReply (some "k") ⟨some "hello", some "French"⟩ (fun _ _ =>
        ⟨true, "OK", candidatePayload "Hi\n\nThanks\nSee you"⟩)).2 =
      ⟨200, RespBody.suggestions ["Hi", "Thanks", "See you"]⟩ :=
  (C6_suggestions_from_split (some "k") ⟨some "hello", some "French"⟩ "OK"
    "Hi\n\nThanks\nSee you" rfl rfl rfl).2

/-- C10: in /suggest-reply only the whole upstream text is trimmed and
whitespace-only lines are dropped; each returned suggestion is a line of
the trimmed text kept verbatim, with its own leading and trailing
whitespace.  In particular upstream text "a\n  b  \nc" yields
["a", "  b  ", "c"], not ["a", "b", "c"]. -/
theorem C10_suggestion_lines_keep_whitespace :
    (∀ (key : Option String) (sb : SuggestBody) (st t : String),
      falsyStr key = false → falsyStr sb.text = false → falsyStr sb.language = false →
      ∃ ss, (suggestReply key sb (fun _ _ => ⟨true, st, candidatePayload t⟩)).2 =
          ⟨200, RespBody.suggestions ss⟩ ∧
        ss.Sublist (jsSplit (jsTrim t) '\n') ∧
        ∀ l ∈ ss, jsTrim l ≠ "") ∧
    (suggestReply (some "k") ⟨some "hello", some "French"⟩ (fun _ _ =>
        ⟨true, "OK", candidatePayload "a\n  b  \nc"⟩)).2 =
      ⟨200, RespBody.suggestions ["a", "  b  ", "c"]⟩ ∧
    (["a", "  b  ", "c"] : List String) ≠ ["a", "b", "c"] := by
  refine ⟨?_, rfl, by decide⟩
  intro key sb st t hk h1 h2
  refine ⟨(jsSplit (jsTrim t) '\n').filter (fun line => jsTrim line != ""), ?_, ?_, ?_⟩
  · unfold suggestReply
    simp only [hk, h1, h2, Bool.or_self, Bool.false_or, Bool.or_false, Bool.false_eq_true,
      ite_false, if_false]
    rfl
  · exact List.filter_sublist _
  · intro l hl
    have := List.of_mem_filter hl
    simpa using this

/-- Witness for C10 at a concrete input. -/
theorem C10_suggestion_lines_keep_whitespace_witness :
    ∃ ss, (suggestReply (some "k") ⟨some "hello", some "French"⟩ (fun _ _ =>
        ⟨true, "OK", candidatePayload "a\n  b  \nc"⟩)).2 =
        ⟨200, RespBody.suggestions ss⟩ ∧
      ss.Sublist (jsSplit (jsTrim "a\n  b  \nc") '\n') ∧
      ∀ l ∈ ss, jsTrim l ≠ "" :=
  C10_suggestion_lines_keep_whitespace.1 (some "k") ⟨some "hello", some "French"⟩
    "OK" "a\n  b  \nc" rfl rfl rfl

end Server
